import Mathlib

/-
  Verification development for the download-orchestration engine in
  src/spotify-downloader.py.  The Python source is shallowly embedded:
  pure computations become Lean functions, the subprocess and the remote
  Spotify catalog are parameterized as oracles, floats are modelled by
  rationals, exceptions by Except, and the guarded mutable progress
  record by explicit state passing.
-/

/-- Shallow embedding of the dataclass DownloadProgress (source lines 15-29).
Python floats are modelled by rationals; the dataclass defaults are kept
(failed_items defaults to the empty list, as arranged by post_init). -/
structure DownloadProgress where
  current_item : String := ""
  total_items : Nat := 0
  completed_items : Nat := 0
  current_track : String := ""
  failed_items : List String := []
  current_track_progress : ℚ := 0
  current_track_status : String := ""
deriving DecidableEq, Repr

/-- The fresh progress record created in the constructor (source line 58). -/
def initialProgress : DownloadProgress := {}

/-- get_progress_percentage (source lines 31-34). -/
def get_progress_percentage (p : DownloadProgress) : ℚ :=
  if p.total_items = 0 then 0
  else ((p.completed_items : ℚ) / (p.total_items : ℚ)) * 100

/-- The filled-width computation inside get_global_progress_bar (source
line 38): int(width * completed_items / max(total_items, 1)).  Both operands
are nonnegative, so Python int() truncation is floor, i.e. Nat division. -/
def global_filled_width (p : DownloadProgress) (width : Nat) : Nat :=
  width * p.completed_items / max p.total_items 1

/-- update_progress (source lines 121-129): each field is written only when
the corresponding optional argument is present. -/
def update_progress (p : DownloadProgress) (track_name : Option String)
    (progress : Option ℚ) (status : Option String) : DownloadProgress :=
  let p1 := match track_name with
    | some t => { p with current_track := t }
    | none => p
  let p2 := match progress with
    | some pr => { p1 with current_track_progress := pr }
    | none => p1
  match status with
  | some s => { p2 with current_track_status := s }
  | none => p2

/-- Python str.lower modelled characterwise (kept evaluable by the kernel,
unlike the byte-position-based library function). -/
def lowerString (s : String) : String :=
  (s.toList.map Char.toLower).asString

/-- Python str.strip modelled characterwise: whitespace removed from both
ends. -/
def trimString (s : String) : String :=
  (((s.toList.dropWhile Char.isWhitespace).reverse.dropWhile Char.isWhitespace).reverse).asString

/-- Python slice s[:n] modelled characterwise. -/
def takeString (s : String) (n : Nat) : String :=
  (s.toList.take n).asString

/-- The character class of the regex in sanitize_filename (source line 134). -/
def invalidFilenameChar (c : Char) : Bool :=
  c = '<' || c = '>' || c = ':' || c = '\"' || c = '/' || c = '\\' ||
  c = '|' || c = '?' || c = '*'

/-- sanitize_filename (source lines 131-134): re.sub of the invalid
characters by an underscore, then strip. -/
def sanitize_filename (filename : String) : String :=
  trimString ((filename.toList.map (fun c => if invalidFilenameChar c then '_' else c)).asString)

/-- Scan for an occurrence of sub starting at any position of the text. -/
def containsSubAux (sub : List Char) : List Char → Bool
  | [] => sub.isEmpty
  | c :: rest => sub.isPrefixOf (c :: rest) || containsSubAux sub rest

/-- Python substring containment: sub in s. -/
def containsSub (s sub : String) : Bool :=
  containsSubAux sub.toList s.toList

/-- Trigger of source line 302: Searching in line or searching in line.lower(). -/
def trigSearching (line : String) : Bool :=
  containsSub line "Searching" || containsSub (lowerString line) "searching"

/-- Trigger of source line 304. -/
def trigFound (line : String) : Bool :=
  containsSub line "Found" || containsSub (lowerString line) "found"

/-- Trigger of source line 312. -/
def trigDownloading (line : String) : Bool :=
  containsSub line "Downloading" || containsSub (lowerString line) "downloading"

/-- Trigger of source line 314. -/
def trigConverting (line : String) : Bool :=
  containsSub line "Converting" || containsSub (lowerString line) "converting"

/-- Trigger of source line 316: Applying in line or metadata in line.lower(). -/
def trigApplying (line : String) : Bool :=
  containsSub line "Applying" || containsSub (lowerString line) "metadata"

/-- Trigger of source line 318. -/
def trigDownloaded (line : String) : Bool :=
  containsSub line "Downloaded" || containsSub (lowerString line) "downloaded"

/-- Trigger of source line 320: a percent sign occurs in the line. -/
def trigPercent (line : String) : Bool :=
  containsSub line "%"

/-- Trigger of source lines 331 and 353: error or failed in line.lower(). -/
def trigError (line : String) : Bool :=
  containsSub (lowerString line) "error" || containsSub (lowerString line) "failed"

/-- Numeric value of a run of decimal digits, most significant first. -/
def digitsToNat (ds : List Char) : Nat :=
  ds.foldl (fun n c => n * 10 + (c.toNat - '0'.toNat)) 0

/-- Attempt to match the regex (digits, optional dot digits, percent sign)
at the start of the character list.  The Python regex has greedy digit runs
and, since a shortened run leaves a digit next (which can match neither the
dot nor the percent sign), no backtracking can succeed where the greedy
parse fails. -/
def matchPercentAt (cs : List Char) : Option ℚ :=
  let intPart := cs.takeWhile Char.isDigit
  if intPart.isEmpty then none
  else
    match cs.drop intPart.length with
    | '%' :: _ => some ((digitsToNat intPart : ℚ))
    | '.' :: rest2 =>
      let fracPart := rest2.takeWhile Char.isDigit
      if fracPart.isEmpty then none
      else match rest2.drop fracPart.length with
        | '%' :: _ =>
          some ((digitsToNat intPart : ℚ) + (digitsToNat fracPart : ℚ) / ((10 : ℚ) ^ fracPart.length))
        | _ => none
    | _ => none

/-- The left-to-right scan performed by re.search (source line 323). -/
def scanPercent : List Char → Option ℚ
  | [] => none
  | c :: rest =>
    match matchPercentAt (c :: rest) with
    | some v => some v
    | none => scanPercent rest

/-- Extraction of the first percentage token in a line (source lines 322-326).
Python float values are modelled by exact rationals. -/
def extractPercent (line : String) : Option ℚ :=
  scanPercent line.toList

/-- Python line.split(colon, 1) last element: everything after the first
colon (source line 308); only used under the guard that a colon occurs. -/
def afterFirstColon (s : String) : String :=
  ((s.toList.dropWhile (fun c => c ≠ ':')).drop 1).asString

/-- One iteration of the output-analysis if/elif chain of
run_spotdl_command (source lines 301-332) applied to one stripped
output line.  Each branch mirrors the corresponding update_progress call. -/
def lineStep (p : DownloadProgress) (output_clean : String) : DownloadProgress :=
  if trigSearching output_clean then
    update_progress p none (some 10) (some "🔍 Recherche...")
  else if trigFound output_clean then
    let p1 := update_progress p none (some 20) (some "✅ Trouvé")
    if containsSub output_clean ":" then
      let track_info := trimString (afterFirstColon output_clean)
      if track_info.length > 3 then
        let clean_track :=
          if track_info.length > 60 then takeString track_info 60 ++ "..." else track_info
        update_progress p1 (some clean_track) none none
      else p1
    else p1
  else if trigDownloading output_clean then
    update_progress p none (some 40) (some "📥 Téléchargement...")
  else if trigConverting output_clean then
    update_progress p none (some 70) (some "🔄 Conversion...")
  else if trigApplying output_clean then
    update_progress p none (some 85) (some "🏷️ Métadonnées...")
  else if trigDownloaded output_clean then
    update_progress p none (some 100) (some "✅ Terminé")
  else if trigPercent output_clean then
    match extractPercent output_clean with
    | some percent =>
      update_progress p none
        (some (min 95 (max p.current_track_progress (30 + percent * 0.6)))) none
    | none => p
  else if trigError output_clean then
    update_progress p none (some 0) (some "❌ Erreur détectée")
  else p

/-- The whole output-reading loop of run_spotdl_command over the stripped
stdout lines it receives (source lines 292-332). -/
def processOutput (p : DownloadProgress) (lines : List String) : DownloadProgress :=
  lines.foldl lineStep p

/-- The progress value assigned by lineStep, as a function of the current
progress value alone (the branch conditions and assigned values of source
lines 301-332 do not depend on any other field). -/
def stepProg (q : ℚ) (line : String) : ℚ :=
  if trigSearching line then 10
  else if trigFound line then 20
  else if trigDownloading line then 40
  else if trigConverting line then 70
  else if trigApplying line then 85
  else if trigDownloaded line then 100
  else if trigPercent line then
    match extractPercent line with
    | some percent => min 95 (max q (30 + percent * 0.6))
    | none => q
  else if trigError line then 0
  else q

/-- Whether the branch taken for this line is one of the two terminal
phases of the spec state machine: terminal success (the downloaded
trigger, floor 100) or terminal failure (the error trigger, progress 0). -/
def isTerminalLine (line : String) : Bool :=
  if trigSearching line then false
  else if trigFound line then false
  else if trigDownloading line then false
  else if trigConverting line then false
  else if trigApplying line then false
  else if trigDownloaded line then true
  else if trigPercent line then false
  else if trigError line then true
  else false

/-- The fixed floor assigned by the branch taken for this line is at least
the current progress value (true for lines that assign no fixed floor). -/
def floorOk (q : ℚ) (line : String) : Bool :=
  if trigSearching line then decide (q ≤ 10)
  else if trigFound line then decide (q ≤ 20)
  else if trigDownloading line then decide (q ≤ 40)
  else if trigConverting line then decide (q ≤ 70)
  else if trigApplying line then decide (q ≤ 85)
  else true

/-- A line sequence is in canonical phase order from progress value q:
no line triggers a terminal branch, and every fixed-floor trigger carries
a floor at least as large as the progress value reached so far. -/
def orderedOutput (q : ℚ) : List String → Bool
  | [] => true
  | l :: ls => !(isTerminalLine l) && floorOk q l && orderedOutput (stepProg q l) ls

/-- The stderr capture of run_spotdl_command (source lines 334-337): the
whole stderr stream is read at once and, when non-empty, its stripped text
becomes the single element of error_lines. -/
def stderrErrorLines (stderr_output : String) : List String :=
  if stderr_output ≠ "" then [trimString stderr_output] else []

/-- Python list slice of the last five elements (source line 352). -/
def lastFive (l : List String) : List String :=
  l.drop (l.length - 5)

/-- The failure-reason computation of run_spotdl_command (source lines
347-355): the first stderr capture truncated to 60 characters, else the
last line among the final five output lines containing an error or failed
token (the loop walks the reversed slice and stops at the first hit),
truncated to 60 characters, else the fixed unknown-error message. -/
def computeErrorMsg (error_lines output_lines : List String) : String :=
  match error_lines with
  | e :: _ => takeString e 60
  | [] =>
    match (lastFive output_lines).reverse.find? trigError with
    | some line => takeString line 60
    | none => "Erreur inconnue"

/-- Modelled from the spec for comparison with computeErrorMsg: the spec
says the fallback reason is the last OUTPUT line (among all captured
output lines) containing an error or failure token, truncated for
display. -/
def claimedErrorMsg (error_lines output_lines : List String) : String :=
  match error_lines with
  | e :: _ => takeString e 60
  | [] =>
    match output_lines.reverse.find? trigError with
    | some line => takeString line 60
    | none => "Erreur inconnue"

/-- run_spotdl_command (source lines 267-364).  The spawned subprocess is
parameterized by the stripped stdout lines it produces, its raw stderr
text, and its exit status; the function returns the success flag together
with the progress state it leaves behind. -/
def run_spotdl_command (command : List String) (output_lines : List String)
    (stderr_output : String) (return_code : Int) (item_name : String)
    (p : DownloadProgress) : Bool × DownloadProgress :=
  let p0 := update_progress p (some item_name) (some 0) (some "🔄 Démarrage...")
  let p1 := processOutput p0 output_lines
  let error_lines := stderrErrorLines stderr_output
  if return_code = 0 then
    (true, update_progress p1 none (some 100) (some "✅ Succès"))
  else
    let error_msg := computeErrorMsg error_lines output_lines
    (false, update_progress p1 none (some 0) (some ("❌ " ++ error_msg)))

/-- The spotdl command line built by download_item (source lines 379-386);
the command references command, so the build is kept explicit. -/
def spotdl_command (item_id : String) : List String :=
  ["spotdl", "download", "https://open.spotify.com/track/" ++ item_id,
   "--format", "mp3", "--bitrate", "320k", "--overwrite", "skip"]

/-- Result of one download_item call: the returned success flag, whether
the external download driver was invoked, the command passed to it, and
the progress state left behind. -/
structure DownloadItemResult where
  success : Bool
  driver_invoked : Bool
  command : List String
  state : DownloadProgress
deriving Repr

/-- download_item (source lines 366-401): builds the spotdl command,
unconditionally runs the driver, then under the lock increments
completed_items and, on failure, appends the display name to
failed_items.  Directory creation is filesystem glue outside the model. -/
def download_item (output_lines : List String) (stderr_output : String)
    (return_code : Int) (artist album_name item_id : String)
    (p : DownloadProgress) : DownloadItemResult :=
  let command := spotdl_command item_id
  let display_name := artist ++ " - " ++ album_name
  let r := run_spotdl_command command output_lines stderr_output return_code display_name p
  { success := r.1
    driver_invoked := true
    command := command
    state :=
      { r.2 with
        completed_items := r.2.completed_items + 1
        failed_items :=
          if r.1 then r.2.failed_items else r.2.failed_items ++ [display_name] } }

/-- Modelled from the spec: the job-runner step the claim describes, with
an idempotency check consulted before the driver.  Returns (driver
invoked, completed counter, skipped counter, failure list); on an existing
output the job is marked skipped, completed and skipped are both
incremented, and the driver is not invoked. -/
def claimedDownloadItem (exists_check driver_success : Bool)
    (artist album_name : String) (completed skipped : Nat)
    (failed : List String) : Bool × Nat × Nat × List String :=
  if exists_check then
    (false, completed + 1, skipped + 1, failed)
  else
    (true, completed + 1, skipped,
      if driver_success then failed else failed ++ [artist ++ " - " ++ album_name])

/-- One resolved track descriptor.  The source carries these as 4-tuples
(artist, album_name, item_id, url_type) (e.g. source lines 196, 234-239);
the fields are named after the spec data model. -/
structure TrackJob where
  artist : String
  album : String
  track_id : String
  source_kind : String
deriving DecidableEq, Repr

/-- The dedup key built in process_urls_file (source line 434). -/
def trackKey (j : TrackJob) : String × String × String :=
  (j.artist, j.album, j.track_id)

/-- The dedup loop of process_urls_file (source lines 430-437), with the
seen_tracks set modelled as the list of keys added so far. -/
def dedupeFrom (seen : List (String × String × String)) : List TrackJob → List TrackJob
  | [] => []
  | j :: rest =>
    if trackKey j ∈ seen then dedupeFrom seen rest
    else j :: dedupeFrom (trackKey j :: seen) rest

/-- Deduplication as performed on the full resolved job list (source
lines 430-437), starting from an empty seen set. -/
def dedupe (x : List TrackJob) : List TrackJob :=
  dedupeFrom [] x

/-- Modelled from the spec for comparison with dedupe: keep the first
occurrence of each key, dropping every later element with an already
represented key, in the original relative order. -/
def firstOccurrences : List TrackJob → List TrackJob
  | [] => []
  | j :: rest =>
    j :: firstOccurrences (rest.filter (fun j2 => !decide (trackKey j2 = trackKey j)))
termination_by l => l.length
decreasing_by
  simp only [List.length_cons]
  exact Nat.lt_succ_of_le (List.length_filter_le _ _)

/-- The fields of sp.album the source reads (lines 213-216): first artist
name, album name, and tracks total. -/
structure AlbumData where
  artist : String
  name : String
  total : Nat
deriving Repr

/-- One item of an sp.album_tracks page; the source only reads its id,
which may be absent (line 233). -/
structure AlbumTrackEntry where
  id : Option String
deriving DecidableEq, Repr

/-- The fields of sp.playlist the source reads (lines 169-171). -/
structure PlaylistData where
  name : String
  total : Nat
deriving Repr

/-- A playlist page entry's track object, with the fields the source reads
(lines 190-196): id (may be absent), artist names, and album name. -/
structure PlaylistTrack where
  id : Option String
  artists : List String
  album : String
deriving DecidableEq, Repr

/-- One item of an sp.playlist_tracks page; the track may be null (a
removed or unavailable catalog item, line 191). -/
structure PlaylistEntry where
  track : Option PlaylistTrack
deriving DecidableEq, Repr

/-- The remote Spotify collaborator, as consumed by the resolver.  Each
operation may fail (any exception in the Python client); page fetches take
the offset, the limit being fixed at each call site. -/
structure SpotifyOracle where
  album : String → Except Unit AlbumData
  album_tracks : String → Nat → Except Unit (List AlbumTrackEntry)
  playlist : String → Except Unit PlaylistData
  playlist_tracks : String → Nat → Except Unit (List PlaylistEntry)

/-- The offsets visited by the pagination loop, which starts at 0 and adds
limit while offset < total (source lines 179-198 and 224-241): these are
k * limit for k below the number of pages, the ceiling of total / limit
(the source limits are the literals 100 and 50, never zero). -/
def pageOffsets (limit total : Nat) : List Nat :=
  (List.range ((total + limit - 1) / limit)).map (fun k => k * limit)

/-- Fetch and concatenate all pages in offset order; the first failing
fetch aborts the whole computation, as the exception would reach the
enclosing try of the Python function and discard the collected items. -/
def fetchPages (fetch : Nat → Except Unit (List α)) (limit total : Nat) :
    Except Unit (List α) :=
  (pageOffsets limit total).foldlM (fun acc off => (fetch off).map (fun items => acc ++ items)) []

/-- The per-track body of the album pagination loop (source lines 232-239):
keep the track when its id is present and truthy (a non-empty string), and
emit the tuple (sanitized artist, sanitized album name, id, track). -/
def albumEntryJob (artist album_name : String) (e : AlbumTrackEntry) : Option TrackJob :=
  match e.id with
  | some i =>
    if i = "" then none
    else some ⟨sanitize_filename artist, sanitize_filename album_name, i, "track"⟩
  | none => none

/-- get_album_tracks_info (source lines 210-251): look up the album
metadata once, paginate its track listing with limit 50, and map each
entry; any lookup failure yields the empty list. -/
def get_album_tracks_info (sp : SpotifyOracle) (album_id : String) : List TrackJob :=
  match sp.album album_id with
  | .error _ => []
  | .ok a =>
    match fetchPages (fun off => sp.album_tracks album_id off) 50 a.total with
    | .error _ => []
    | .ok entries => entries.filterMap (albumEntryJob a.artist a.name)

/-- The per-entry body of the playlist pagination loop (source lines
190-196): the guard requires the track to be non-null, its id to be a
non-empty string, and its artists list to be non-empty; the emitted tuple
is (sanitized first artist, sanitized album name, id, playlist). -/
def playlistEntryJob (e : PlaylistEntry) : Option TrackJob :=
  match e.track with
  | none => none
  | some t =>
    match t.id with
    | none => none
    | some i =>
      if i = "" then none
      else
        match t.artists with
        | [] => none
        | a :: _ => some ⟨sanitize_filename a, sanitize_filename t.album, i, "playlist"⟩

/-- Modelled from the spec for comparison with playlistEntryJob: the spec
says exactly the entries whose track is null or has no id are skipped, so
an entry with a track and an id always yields a job. -/
def claimedPlaylistEntryJob (e : PlaylistEntry) : Option TrackJob :=
  match e.track with
  | none => none
  | some t =>
    match t.id with
    | none => none
    | some i =>
      if i = "" then none
      else some ⟨sanitize_filename (t.artists.headD ""), sanitize_filename t.album, i, "playlist"⟩

/-- get_playlist_info (source lines 166-208): look up the playlist
metadata once, paginate its track listing with limit 100, and map each
entry; any lookup failure yields the empty list. -/
def get_playlist_info (sp : SpotifyOracle) (playlist_id : String) : List TrackJob :=
  match sp.playlist playlist_id with
  | .error _ => []
  | .ok pl =>
    match fetchPages (fun off => sp.playlist_tracks playlist_id off) 100 pl.total with
    | .error _ => []
    | .ok entries => entries.filterMap playlistEntryJob

/-- Attempt to match the URL regex (literal spotify.com slash, then a
non-empty run of non-slash characters, a slash, then a non-empty run of
characters that are neither slash nor question mark) at the start of the
character list.  As the runs are maximal and shrinking one leaves a
character that can match nothing later in the pattern, greedy parsing
equals the regex backtracking semantics. -/
def matchSpotifyAt (cs : List Char) : Option (String × String) :=
  if ("spotify.com/".toList).isPrefixOf cs then
    let rest := cs.drop 12
    let g1 := rest.takeWhile (fun c => c ≠ '/')
    if g1.isEmpty then none
    else
      match rest.drop g1.length with
      | '/' :: rest3 =>
        let g2 := rest3.takeWhile (fun c => c ≠ '/' && c ≠ '?')
        if g2.isEmpty then none else some (g1.asString, g2.asString)
      | _ => none
  else none

/-- The left-to-right scan performed by re.search (source line 143). -/
def scanSpotify : List Char → Option (String × String)
  | [] => none
  | c :: rest =>
    match matchSpotifyAt (c :: rest) with
    | some r => some r
    | none => scanSpotify rest

/-- The type and id captured from a Spotify URL (source lines 142-148). -/
def spotifyUrlMatch (url : String) : Option (String × String) :=
  scanSpotify url.toList

/-- extract_spotify_info (source lines 136-153): raising is modelled as
Except.error carrying the message. -/
def extract_spotify_info (url : String) : Except String (String × String) :=
  if containsSub url "spotify.com" = false then .error "URL Spotify invalide"
  else
    match spotifyUrlMatch url with
    | none => .error "Impossible d\x27extraire les informations de l\x27URL"
    | some (url_type, item_id) =>
      if url_type = "album" || url_type = "playlist" then .ok (url_type, item_id)
      else .error "Le type doit être \x27album\x27 ou \x27playlist\x27"

/-- A URL the claim calls malformed: wrong domain, pattern not matching, or
kind outside album and playlist. -/
def malformedUrl (url : String) : Bool :=
  !(containsSub url "spotify.com") ||
  (match spotifyUrlMatch url with
   | none => true
   | some (ty, _) => !(ty = "album" || ty = "playlist"))

/-- parse_spotify_item (source lines 253-265): any exception raised below
is caught and the empty list returned.  (The fall-through returning None
when the type is neither album nor playlist is unreachable, because
extract_spotify_info validates the type; it is modelled as the empty
list.) -/
def parse_spotify_item (sp : SpotifyOracle) (url : String) : List TrackJob :=
  match extract_spotify_info url with
  | .error _ => []
  | .ok (url_type, item_id) =>
    if url_type = "album" then get_album_tracks_info sp item_id
    else if url_type = "playlist" then get_playlist_info sp item_id
    else []

/-- The URL-resolution loop of process_urls_file (source lines 421-425):
all_items starts empty and each URL's items are appended in order. -/
def resolveUrls (sp : SpotifyOracle) (urls : List String) : List TrackJob :=
  urls.foldl (fun all_items url => all_items ++ parse_spotify_item sp url) []

/-- The outcome of the external subprocess for one job: the stripped
stdout lines it emits, its raw stderr text, and its exit status. -/
structure JobOutcome where
  output_lines : List String
  stderr_output : String
  return_code : Int

/-- The per-item download loop of process_urls_file (source lines
449-453), with the subprocess outcome of each job given by an
environment. -/
def runJobs (env : TrackJob → JobOutcome) (jobs : List TrackJob)
    (p : DownloadProgress) : DownloadProgress :=
  jobs.foldl
    (fun st j =>
      (download_item (env j).output_lines (env j).stderr_output (env j).return_code
        j.artist j.album j.track_id st).state)
    p

/-- The progress initialisation of process_urls_file (source lines
442-443): total_items is set to the unique-job count and completed_items
reset to zero, on the fresh constructor state. -/
def initProgressState (n : Nat) : DownloadProgress :=
  { initialProgress with total_items := n, completed_items := 0 }

/-- The shared progress state observed after the first k unique jobs of a
run over the deduplicated job list. -/
def runPrefix (env : TrackJob → JobOutcome) (jobs : List TrackJob) (k : Nat) :
    DownloadProgress :=
  runJobs env (jobs.take k) (initProgressState jobs.length)

/-- A concrete remote collaborator used to instantiate the oracle-based
theorems: one known album of three tracks, one known playlist of two
entries with one null track, and one known playlist whose single entry
has an id but an empty artists list; every other id fails. -/
def sampleOracle : SpotifyOracle where
  album := fun aid =>
    if aid = "alb1" then .ok ⟨"The Artist", "The Album", 3⟩ else .error ()
  album_tracks := fun aid off =>
    if aid = "alb1" && off = 0 then .ok [⟨some "t1"⟩, ⟨some "t2"⟩, ⟨some "t3"⟩]
    else .error ()
  playlist := fun pid =>
    if pid = "pl1" then .ok ⟨"My Playlist", 2⟩
    else if pid = "pl2" then .ok ⟨"Other Playlist", 1⟩
    else .error ()
  playlist_tracks := fun pid off =>
    if pid = "pl1" && off = 0 then
      .ok [⟨some ⟨some "p1", ["Some Artist"], "Some Album"⟩⟩, ⟨none⟩]
    else if pid = "pl2" && off = 0 then
      .ok [⟨some ⟨some "x9", [], "Alb"⟩⟩]
    else .error ()

theorem update_progress_total (p : DownloadProgress) (t : Option String)
    (pr : Option ℚ) (s : Option String) :
    (update_progress p t pr s).total_items = p.total_items := by
  unfold update_progress
  cases t <;> cases pr <;> cases s <;> rfl

theorem update_progress_completed (p : DownloadProgress) (t : Option String)
    (pr : Option ℚ) (s : Option String) :
    (update_progress p t pr s).completed_items = p.completed_items := by
  unfold update_progress
  cases t <;> cases pr <;> cases s <;> rfl

theorem update_progress_failed (p : DownloadProgress) (t : Option String)
    (pr : Option ℚ) (s : Option String) :
    (update_progress p t pr s).failed_items = p.failed_items := by
  unfold update_progress
  cases t <;> cases pr <;> cases s <;> rfl

theorem update_progress_current_item (p : DownloadProgress) (t : Option String)
    (pr : Option ℚ) (s : Option String) :
    (update_progress p t pr s).current_item = p.current_item := by
  unfold update_progress
  cases t <;> cases pr <;> cases s <;> rfl

theorem update_progress_track_none (p : DownloadProgress)
    (pr : Option ℚ) (s : Option String) :
    (update_progress p none pr s).current_track = p.current_track := by
  unfold update_progress
  cases pr <;> cases s <;> rfl

theorem update_progress_progress_none (p : DownloadProgress) (t : Option String)
    (s : Option String) :
    (update_progress p t none s).current_track_progress = p.current_track_progress := by
  unfold update_progress
  cases t <;> cases s <;> rfl

theorem update_progress_status_none (p : DownloadProgress) (t : Option String)
    (pr : Option ℚ) :
    (update_progress p t pr none).current_track_status = p.current_track_status := by
  unfold update_progress
  cases t <;> cases pr <;> rfl

theorem update_progress_progress_some (p : DownloadProgress) (t : Option String)
    (pr : ℚ) (s : Option String) :
    (update_progress p t (some pr) s).current_track_progress = pr := by
  unfold update_progress
  cases t <;> cases s <;> rfl

theorem update_progress_status_some (p : DownloadProgress) (t : Option String)
    (pr : Option ℚ) (s : String) :
    (update_progress p t pr (some s)).current_track_status = s := by
  unfold update_progress
  cases t <;> cases pr <;> rfl

theorem lineStep_total (p : DownloadProgress) (line : String) :
    (lineStep p line).total_items = p.total_items := by
  unfold lineStep
  split_ifs <;> (try cases extractPercent line) <;>
    (try simp [update_progress_total]) <;> (try split_ifs) <;>
    simp [update_progress_total]

theorem lineStep_completed (p : DownloadProgress) (line : String) :
    (lineStep p line).completed_items = p.completed_items := by
  unfold lineStep
  split_ifs <;> (try cases extractPercent line) <;>
    (try simp [update_progress_completed]) <;> (try split_ifs) <;>
    simp [update_progress_completed]

theorem lineStep_failed (p : DownloadProgress) (line : String) :
    (lineStep p line).failed_items = p.failed_items := by
  unfold lineStep
  split_ifs <;> (try cases extractPercent line) <;>
    (try simp [update_progress_failed]) <;> (try split_ifs) <;>
    simp [update_progress_failed]

theorem processOutput_total (p : DownloadProgress) (lines : List String) :
    (processOutput p lines).total_items = p.total_items := by
  induction lines generalizing p with
  | nil => rfl
  | cons l ls ih => simpa [processOutput, lineStep_total] using (ih (lineStep p l)).trans (lineStep_total p l)

theorem processOutput_completed (p : DownloadProgress) (lines : List String) :
    (processOutput p lines).completed_items = p.completed_items := by
  induction lines generalizing p with
  | nil => rfl
  | cons l ls ih => simpa [processOutput] using (ih (lineStep p l)).trans (lineStep_completed p l)

theorem processOutput_failed (p : DownloadProgress) (lines : List String) :
    (processOutput p lines).failed_items = p.failed_items := by
  induction lines generalizing p with
  | nil => rfl
  | cons l ls ih => simpa [processOutput] using (ih (lineStep p l)).trans (lineStep_failed p l)

theorem lineStep_progress (p : DownloadProgress) (line : String) :
    (lineStep p line).current_track_progress = stepProg p.current_track_progress line := by
  unfold lineStep stepProg
  split_ifs <;> (try cases extractPercent line) <;>
    (try simp [update_progress_progress_some, update_progress_progress_none]) <;>
    (try split_ifs) <;>
    simp [update_progress_progress_some, update_progress_progress_none]

theorem stepProg_mono (q : ℚ) (line : String) (hq : q ≤ 95)
    (hterm : isTerminalLine line = false) (hfloor : floorOk q line = true) :
    q ≤ stepProg q line ∧ stepProg q line ≤ 95 := by
  unfold stepProg
  unfold isTerminalLine at hterm
  unfold floorOk at hfloor
  split_ifs at hterm hfloor ⊢ <;> simp_all <;>
    try (constructor <;> linarith)
  cases hE : extractPercent line with
  | none =>
    simp only [hE]
    exact ⟨le_refl q, hq⟩
  | some pc =>
    simp only [hE]
    exact ⟨le_min hq (le_max_left _ _), min_le_left _ _⟩

theorem scanl_map_progress_head (b : DownloadProgress) (l : List String) :
    ((List.scanl lineStep b l).map (fun s => s.current_track_progress)).head? =
      some b.current_track_progress := by
  cases l <;> rfl

theorem orderedOutput_chain (ls : List String) : ∀ (p : DownloadProgress),
    p.current_track_progress ≤ 95 →
    orderedOutput p.current_track_progress ls = true →
    List.Chain' (· ≤ ·)
      ((List.scanl lineStep p ls).map (fun s => s.current_track_progress)) := by
  induction ls with
  | nil =>
    intro p _ _
    simp [List.scanl_nil, List.chain'_singleton]
  | cons l ls ih =>
    intro p hp hord
    unfold orderedOutput at hord
    simp only [Bool.and_eq_true, Bool.not_eq_true'] at hord
    obtain ⟨⟨hterm, hfloor⟩, hrest⟩ := hord
    have hmono := stepProg_mono p.current_track_progress l hp hterm hfloor
    rw [List.scanl_cons, List.singleton_append, List.map_cons]
    refine List.chain'_cons'.2 ⟨?_, ?_⟩
    · intro y hy
      rw [scanl_map_progress_head] at hy
      cases hy
      rw [lineStep_progress]
      exact hmono.1
    · apply ih
      · rw [lineStep_progress]; exact hmono.2
      · rw [lineStep_progress]; exact hrest

theorem dedupeFrom_sublist (l : List TrackJob) :
    ∀ seen, (dedupeFrom seen l).Sublist l := by
  induction l with
  | nil => intro seen; simp [dedupeFrom]
  | cons j rest ih =>
    intro seen
    unfold dedupeFrom
    split_ifs with h
    · exact (ih seen).trans (List.sublist_cons_self j rest)
    · exact (ih (trackKey j :: seen)).cons₂ j

theorem dedupeFrom_not_mem_seen (l : List TrackJob) :
    ∀ seen j, j ∈ dedupeFrom seen l → trackKey j ∉ seen := by
  induction l with
  | nil => intro seen j hj; simp [dedupeFrom] at hj
  | cons a rest ih =>
    intro seen j hj
    unfold dedupeFrom at hj
    split_ifs at hj with h
    · exact ih seen j hj
    · rcases List.mem_cons.1 hj with rfl | hj2
      · exact h
      · intro hmem
        exact ih (trackKey a :: seen) j hj2 (List.mem_cons_of_mem _ hmem)

theorem dedupeFrom_keys_nodup (l : List TrackJob) :
    ∀ seen, ((dedupeFrom seen l).map trackKey).Nodup := by
  induction l with
  | nil => intro seen; simp [dedupeFrom]
  | cons a rest ih =>
    intro seen
    unfold dedupeFrom
    split_ifs with h
    · exact ih seen
    · rw [List.map_cons]
      refine List.nodup_cons.2 ⟨?_, ih (trackKey a :: seen)⟩
      intro hmem
      rcases List.mem_map.1 hmem with ⟨j, hj, hkey⟩
      exact dedupeFrom_not_mem_seen rest (trackKey a :: seen) j hj
        (hkey ▸ List.mem_cons_self _ _)

theorem dedupeFrom_of_fresh (l : List TrackJob) :
    ∀ seen, (∀ j ∈ l, trackKey j ∉ seen) → (l.map trackKey).Nodup →
    dedupeFrom seen l = l := by
  induction l with
  | nil => intro seen _ _; rfl
  | cons a rest ih =>
    intro seen hfresh hnodup
    unfold dedupeFrom
    rw [if_neg (hfresh a (List.mem_cons_self _ _))]
    rw [List.map_cons, List.nodup_cons] at hnodup
    refine congrArg (a :: ·) (ih (trackKey a :: seen) ?_ hnodup.2)
    intro j hj
    rw [List.mem_cons, not_or]
    constructor
    · intro hk
      exact hnodup.1 (hk ▸ List.mem_map_of_mem trackKey hj)
    · exact hfresh j (List.mem_cons_of_mem _ hj)

theorem dedupeFrom_eq_firstOccurrences (l : List TrackJob) :
    ∀ seen, dedupeFrom seen l =
      firstOccurrences (l.filter (fun j => !decide (trackKey j ∈ seen))) := by
  induction l with
  | nil => intro seen; simp [dedupeFrom, firstOccurrences]
  | cons a rest ih =>
    intro seen
    unfold dedupeFrom
    split_ifs with h
    · rw [ih seen, List.filter_cons_of_neg (by simpa using h)]
    · rw [List.filter_cons_of_pos (by simpa using h)]
      have hfil :
          (List.filter (fun j => !decide (trackKey j ∈ seen)) rest).filter
              (fun j2 => !decide (trackKey j2 = trackKey a)) =
            rest.filter (fun j => !decide (trackKey j ∈ trackKey a :: seen)) := by
        rw [List.filter_filter]
        apply List.filter_congr
        intro j _
        simp only [List.mem_cons, Bool.decide_or, Bool.not_or]
      rw [firstOccurrences, hfil, ih (trackKey a :: seen)]

theorem run_spotdl_completed (command output_lines : List String) (stderr_output : String)
    (return_code : Int) (item_name : String) (p : DownloadProgress) :
    (run_spotdl_command command output_lines stderr_output return_code item_name p).2.completed_items =
      p.completed_items := by
  unfold run_spotdl_command
  split_ifs <;>
    simp [update_progress_completed, processOutput_completed]

theorem run_spotdl_total (command output_lines : List String) (stderr_output : String)
    (return_code : Int) (item_name : String) (p : DownloadProgress) :
    (run_spotdl_command command output_lines stderr_output return_code item_name p).2.total_items =
      p.total_items := by
  unfold run_spotdl_command
  split_ifs <;>
    simp [update_progress_total, processOutput_total]

theorem run_spotdl_failed (command output_lines : List String) (stderr_output : String)
    (return_code : Int) (item_name : String) (p : DownloadProgress) :
    (run_spotdl_command command output_lines stderr_output return_code item_name p).2.failed_items =
      p.failed_items := by
  unfold run_spotdl_command
  split_ifs <;>
    simp [update_progress_failed, processOutput_failed]

theorem run_spotdl_fail_flag (command output_lines : List String) (stderr_output : String)
    (return_code : Int) (item_name : String) (p : DownloadProgress)
    (h : return_code ≠ 0) :
    (run_spotdl_command command output_lines stderr_output return_code item_name p).1 = false := by
  unfold run_spotdl_command
  simp [h]

theorem run_spotdl_fail_status (command output_lines : List String) (stderr_output : String)
    (return_code : Int) (item_name : String) (p : DownloadProgress)
    (h : return_code ≠ 0) :
    (run_spotdl_command command output_lines stderr_output return_code item_name p).2.current_track_status =
      "❌ " ++ computeErrorMsg (stderrErrorLines stderr_output) output_lines := by
  unfold run_spotdl_command
  simp [h, update_progress_status_some]

theorem download_item_completed (output_lines : List String) (stderr_output : String)
    (return_code : Int) (artist album_name item_id : String) (p : DownloadProgress) :
    (download_item output_lines stderr_output return_code artist album_name item_id p).state.completed_items =
      p.completed_items + 1 := by
  unfold download_item
  simp [run_spotdl_completed]

theorem download_item_total (output_lines : List String) (stderr_output : String)
    (return_code : Int) (artist album_name item_id : String) (p : DownloadProgress) :
    (download_item output_lines stderr_output return_code artist album_name item_id p).state.total_items =
      p.total_items := by
  unfold download_item
  simp [run_spotdl_total]

theorem runJobs_completed (env : TrackJob → JobOutcome) (jobs : List TrackJob) :
    ∀ p, (runJobs env jobs p).completed_items = p.completed_items + jobs.length := by
  induction jobs with
  | nil => intro p; rfl
  | cons j rest ih =>
    intro p
    unfold runJobs
    rw [List.foldl_cons]
    have := ih ((download_item (env j).output_lines (env j).stderr_output
      (env j).return_code j.artist j.album j.track_id p).state)
    unfold runJobs at this
    rw [this, download_item_completed]
    simp [List.length_cons]
    ring

theorem runJobs_total (env : TrackJob → JobOutcome) (jobs : List TrackJob) :
    ∀ p, (runJobs env jobs p).total_items = p.total_items := by
  induction jobs with
  | nil => intro p; rfl
  | cons j rest ih =>
    intro p
    unfold runJobs
    rw [List.foldl_cons]
    have := ih ((download_item (env j).output_lines (env j).stderr_output
      (env j).return_code j.artist j.album j.track_id p).state)
    unfold runJobs at this
    rw [this, download_item_total]

theorem resolveFold_acc (sp : SpotifyOracle) (urls : List String) :
    ∀ acc : List TrackJob,
      urls.foldl (fun all_items url => all_items ++ parse_spotify_item sp url) acc =
        acc ++ resolveUrls sp urls := by
  induction urls with
  | nil => intro acc; simp [resolveUrls]
  | cons u rest ih =>
    intro acc
    unfold resolveUrls
    rw [List.foldl_cons, List.foldl_cons, ih, ih (List.nil ++ parse_spotify_item sp u)]
    simp [List.append_assoc]

theorem resolveUrls_append (sp : SpotifyOracle) (u1 u2 : List String) :
    resolveUrls sp (u1 ++ u2) = resolveUrls sp u1 ++ resolveUrls sp u2 := by
  unfold resolveUrls
  rw [List.foldl_append, resolveFold_acc]
  rfl

theorem resolveUrls_cons (sp : SpotifyOracle) (u : String) (rest : List String) :
    resolveUrls sp (u :: rest) = parse_spotify_item sp u ++ resolveUrls sp rest := by
  unfold resolveUrls
  rw [List.foldl_cons, resolveFold_acc]
  rfl

theorem length_filterMap_eq_countP (f : α → Option β) (l : List α) :
    (l.filterMap f).length = l.countP (fun a => (f a).isSome) := by
  induction l with
  | nil => rfl
  | cons a rest ih =>
    rw [List.filterMap_cons, List.countP_cons]
    cases hE : f a <;> simp [hE, ih]

theorem playlistEntryJob_spec (e : PlaylistEntry) (j : TrackJob)
    (h : playlistEntryJob e = some j) : j.source_kind = "playlist" := by
  unfold playlistEntryJob at h
  cases e with
  | mk track =>
    cases track with
    | none => simp at h
    | some t =>
      cases t with
      | mk id artists album =>
        cases id with
        | none => simp at h
        | some i =>
          by_cases hi : i = ""
          · simp [hi] at h
          · cases artists with
            | nil => simp [hi] at h
            | cons a rest =>
              simp [hi] at h
              rw [← h]

theorem albumEntryJob_spec (artist album_name : String) (e : AlbumTrackEntry) (j : TrackJob)
    (h : albumEntryJob artist album_name e = some j) :
    j.source_kind = "track" ∧ j.artist = sanitize_filename artist ∧
      j.album = sanitize_filename album_name := by
  unfold albumEntryJob at h
  cases e with
  | mk id =>
    cases id with
    | none => simp at h
    | some i =>
      by_cases hi : i = ""
      · simp [hi] at h
      · simp [hi] at h
        rw [← h]
        exact ⟨rfl, rfl, rfl⟩

/-- C10: update_progress writes only the fields whose arguments are
non-None: current_track, current_track_progress and current_track_status
each keep their previous value when the corresponding argument is None,
and total_items, completed_items and failed_items are never modified by
this operation. -/
theorem update_progress_none_frame :
    ∀ (p : DownloadProgress) (t : Option String) (pr : Option ℚ) (s : Option String),
      (update_progress p none pr s).current_track = p.current_track ∧
      (update_progress p t none s).current_track_progress = p.current_track_progress ∧
      (update_progress p t pr none).current_track_status = p.current_track_status ∧
      (update_progress p t pr s).total_items = p.total_items ∧
      (update_progress p t pr s).completed_items = p.completed_items ∧
      (update_progress p t pr s).failed_items = p.failed_items :=
  fun p t pr s =>
    ⟨update_progress_track_none p pr s, update_progress_progress_none p t s,
     update_progress_status_none p t pr, update_progress_total p t pr s,
     update_progress_completed p t pr s, update_progress_failed p t pr s⟩

/-- C9: the global progress computations are total and never divide by
zero: get_progress_percentage returns 0 when total_items = 0 and
(completed_items / total_items) * 100 otherwise, and the bar width
division of get_global_progress_bar uses the positive denominator
max(total_items, 1), which equals total_items whenever it is nonzero. -/
theorem progress_percentage_total_guard :
    ∀ (p : DownloadProgress) (width : Nat),
      (p.total_items = 0 → get_progress_percentage p = 0) ∧
      (p.total_items ≠ 0 →
        get_progress_percentage p = ((p.completed_items : ℚ) / (p.total_items : ℚ)) * 100) ∧
      0 < max p.total_items 1 ∧
      (p.total_items = 0 → global_filled_width p width = width * p.completed_items / 1) ∧
      (p.total_items ≠ 0 → global_filled_width p width = width * p.completed_items / p.total_items) := by
  intro p width
  refine ⟨?_, ?_, ?_, ?_, ?_⟩
  · intro h; simp [get_progress_percentage, h]
  · intro h; simp [get_progress_percentage, h]
  · exact lt_of_lt_of_le Nat.one_pos (le_max_right _ _)
  · intro h; simp [global_filled_width, h]
  · intro h
    unfold global_filled_width
    rw [Nat.max_eq_left (Nat.one_le_iff_ne_zero.2 h)]

theorem progress_percentage_total_guard_witness :
    get_progress_percentage { initialProgress with total_items := 0, completed_items := 3 } = 0 ∧
    global_filled_width { initialProgress with total_items := 0, completed_items := 3 } 40 =
      40 * 3 / 1 :=
  ⟨(progress_percentage_total_guard { initialProgress with total_items := 0, completed_items := 3 } 40).1 rfl,
   (progress_percentage_total_guard { initialProgress with total_items := 0, completed_items := 3 } 40).2.2.2.1 rfl⟩

/-- C4: deduplication is pure, idempotent and order-preserving with key
(artist, album, track_id): dedupe(dedupe x) = dedupe x for every job
sequence x, the output is exactly the first occurrence of each key in the
original relative order (the spec-side firstOccurrences function), and
the output is a sublist of the input. -/
theorem dedupe_idempotent_first_occurrences :
    ∀ x : List TrackJob,
      dedupe (dedupe x) = dedupe x ∧ dedupe x = firstOccurrences x ∧
        (dedupe x).Sublist x := by
  intro x
  refine ⟨?_, ?_, dedupeFrom_sublist x []⟩
  · unfold dedupe
    exact dedupeFrom_of_fresh (dedupeFrom [] x) []
      (fun j _ => List.not_mem_nil _) (dedupeFrom_keys_nodup x [])
  · unfold dedupe
    rw [dedupeFrom_eq_firstOccurrences x []]
    have hfil : x.filter (fun j => !decide (trackKey j ∈ ([] : List (String × String × String)))) = x := by
      simp
    rw [hfil]

/-- C3: completed_items ≤ total_items holds at every observed instant of a
run: total_items is set once (after resolution and deduplication) to the
unique-job count, completed_items starts at 0 and is incremented exactly
once per processed unique job, so after k jobs completed_items = k, and
the inequality also holds at every instant inside the processing of the
next job's subprocess output. -/
theorem completed_le_total_invariant :
    ∀ (env : TrackJob → JobOutcome) (all_items : List TrackJob) (k : Nat) (ls : List String),
      k ≤ (dedupe all_items).length →
      (runPrefix env (dedupe all_items) k).total_items = (dedupe all_items).length ∧
      (runPrefix env (dedupe all_items) k).completed_items = k ∧
      (runPrefix env (dedupe all_items) k).completed_items ≤
        (runPrefix env (dedupe all_items) k).total_items ∧
      (processOutput (runPrefix env (dedupe all_items) k) ls).completed_items ≤
        (processOutput (runPrefix env (dedupe all_items) k) ls).total_items := by
  intro env all_items k ls hk
  have htotal : (runPrefix env (dedupe all_items) k).total_items = (dedupe all_items).length := by
    unfold runPrefix
    rw [runJobs_total]
    rfl
  have hcompleted : (runPrefix env (dedupe all_items) k).completed_items = k := by
    unfold runPrefix
    rw [runJobs_completed]
    simp [initProgressState, List.length_take, Nat.min_eq_left hk]
  refine ⟨htotal, hcompleted, ?_, ?_⟩
  · rw [htotal, hcompleted]; exact hk
  · rw [processOutput_completed, processOutput_total, htotal, hcompleted]; exact hk

theorem completed_le_total_invariant_witness :
    (runPrefix (fun _ => ⟨[], "", 0⟩)
        (dedupe [⟨"A", "B", "1", "track"⟩, ⟨"A", "B", "1", "track"⟩, ⟨"C", "D", "2", "track"⟩]) 1).completed_items =
      1 ∧
    (runPrefix (fun _ => ⟨[], "", 0⟩)
        (dedupe [⟨"A", "B", "1", "track"⟩, ⟨"A", "B", "1", "track"⟩, ⟨"C", "D", "2", "track"⟩]) 1).completed_items ≤
      (runPrefix (fun _ => ⟨[], "", 0⟩)
        (dedupe [⟨"A", "B", "1", "track"⟩, ⟨"A", "B", "1", "track"⟩, ⟨"C", "D", "2", "track"⟩]) 1).total_items :=
  ⟨(completed_le_total_invariant (fun _ => ⟨[], "", 0⟩)
      [⟨"A", "B", "1", "track"⟩, ⟨"A", "B", "1", "track"⟩, ⟨"C", "D", "2", "track"⟩] 1 []
      (by decide)).2.1,
   (completed_le_total_invariant (fun _ => ⟨[], "", 0⟩)
      [⟨"A", "B", "1", "track"⟩, ⟨"A", "B", "1", "track"⟩, ⟨"C", "D", "2", "track"⟩] 1 []
      (by decide)).2.2.1⟩

/-- C1 (amended): the pattern matcher assigns each phase trigger its fixed
floor and clamps only the explicit-percentage branch against the current
value, so within one job's lifecycle the displayed progress is
non-decreasing along every output-line sequence whose phase triggers are
non-terminal and arrive with floors at least the progress already reached
(in particular in canonical phase order); an out-of-order fixed-floor
trigger, by contrast, overwrites the higher value (see the
counterexample). -/
theorem progress_monotone_of_ordered_output :
    ∀ (p : DownloadProgress) (lines : List String),
      p.current_track_progress ≤ 95 →
      orderedOutput p.current_track_progress lines = true →
      List.Chain' (· ≤ ·)
        ((List.scanl lineStep p lines).map fun s => s.current_track_progress) :=
  fun p lines hp hord => orderedOutput_chain lines p hp hord

theorem progress_monotone_of_ordered_output_witness :
    List.Chain' (· ≤ ·)
      ((List.scanl lineStep
          (update_progress initialProgress (some "A - B") (some 0) (some "🔄 Démarrage..."))
          ["Searching for song", "Found: Artist Name - Song Title", "Downloading audio",
            "Converting to mp3", "Applying metadata"]).map
        fun s => s.current_track_progress) :=
  progress_monotone_of_ordered_output
    (update_progress initialProgress (some "A - B") (some 0) (some "🔄 Démarrage..."))
    ["Searching for song", "Found: Artist Name - Song Title", "Downloading audio",
      "Converting to mp3", "Applying metadata"]
    (by decide) (by decide)

theorem progress_floor_regression_counterexample :
    isTerminalLine "Downloading track one" = false ∧
    isTerminalLine "Searching again" = false ∧
    (lineStep (update_progress initialProgress (some "A - B") (some 0) (some "🔄 Démarrage..."))
        "Downloading track one").current_track_progress = 40 ∧
    (lineStep
        (lineStep (update_progress initialProgress (some "A - B") (some 0) (some "🔄 Démarrage..."))
          "Downloading track one")
        "Searching again").current_track_progress = 10 ∧
    ((List.scanl lineStep
        (update_progress initialProgress (some "A - B") (some 0) (some "🔄 Démarrage..."))
        ["Downloading track one", "Searching again"]).map
      fun s => s.current_track_progress) = [0, 40, 10] ∧
    ¬ List.Chain' (· ≤ ·) [(0 : ℚ), 40, 10] := by
  refine ⟨by decide, by decide, by decide, by decide, by decide, ?_⟩
  intro h
  have h3 := (List.chain'_cons.1 (List.chain'_cons.1 h).2).1
  norm_num at h3

/-- C2 (amended): the job runner performs no local idempotency check and
maintains no skipped counter: download_item unconditionally invokes the
download driver for every job, increments completed_items exactly once
per job, and delegates skip-if-already-present semantics to the
subprocess through the overwrite-skip options of the spotdl command. -/
theorem download_item_always_invokes_driver :
    ∀ (output_lines : List String) (stderr_output : String) (return_code : Int)
      (artist album_name item_id : String) (p : DownloadProgress),
      (download_item output_lines stderr_output return_code artist album_name item_id
          p).driver_invoked = true ∧
      (download_item output_lines stderr_output return_code artist album_name item_id
          p).state.completed_items = p.completed_items + 1 ∧
      (download_item output_lines stderr_output return_code artist album_name item_id
          p).command = spotdl_command item_id ∧
      "--overwrite" ∈ spotdl_command item_id ∧ "skip" ∈ spotdl_command item_id := by
  intro output_lines stderr_output return_code artist album_name item_id p
  refine ⟨rfl, download_item_completed _ _ _ _ _ _ _, rfl, ?_, ?_⟩ <;>
    simp [spotdl_command]

theorem no_idempotency_check_counterexample :
    (claimedDownloadItem true false "Art" "Alb" 0 0 []).1 = false ∧
    (claimedDownloadItem true false "Art" "Alb" 0 0 []).2.2.2 = ([] : List String) ∧
    (download_item [] "" 1 "Art" "Alb" "id1" initialProgress).driver_invoked = true ∧
    (download_item [] "" 1 "Art" "Alb" "id1" initialProgress).state.failed_items =
      ["Art - Alb"] := by
  decide

/-- C6 (amended): on non-zero exit status the driver returns failure, the
recorded failure reason is the first captured stderr text truncated to 60
characters or, failing that, the last line among the FINAL FIVE captured
output lines containing an error or failed token, truncated to 60
characters (not the last such line of the whole output, see the
counterexample), else a fixed unknown-error message; and the job's
display name is appended to failed_items exactly once. -/
theorem failure_reporting_amended :
    ∀ (output_lines : List String) (stderr_output : String) (return_code : Int)
      (artist album_name item_id : String) (p : DownloadProgress),
      return_code ≠ 0 →
      (download_item output_lines stderr_output return_code artist album_name item_id
          p).success = false ∧
      (download_item output_lines stderr_output return_code artist album_name item_id
          p).state.current_track_status =
        "❌ " ++ computeErrorMsg (stderrErrorLines stderr_output) output_lines ∧
      (download_item output_lines stderr_output return_code artist album_name item_id
          p).state.failed_items = p.failed_items ++ [artist ++ " - " ++ album_name] ∧
      (download_item output_lines stderr_output return_code artist album_name item_id
          p).state.failed_items.count (artist ++ " - " ++ album_name) =
        p.failed_items.count (artist ++ " - " ++ album_name) + 1 := by
  intro output_lines stderr_output return_code artist album_name item_id p hrc
  have hflag := run_spotdl_fail_flag (spotdl_command item_id) output_lines stderr_output
    return_code (artist ++ " - " ++ album_name) p hrc
  have hstat := run_spotdl_fail_status (spotdl_command item_id) output_lines stderr_output
    return_code (artist ++ " - " ++ album_name) p hrc
  have hfail := run_spotdl_failed (spotdl_command item_id) output_lines stderr_output
    return_code (artist ++ " - " ++ album_name) p
  have hfl : (download_item output_lines stderr_output return_code artist album_name item_id
      p).state.failed_items = p.failed_items ++ [artist ++ " - " ++ album_name] := by
    unfold download_item
    simp [hflag, hfail]
  refine ⟨?_, ?_, hfl, ?_⟩
  · unfold download_item
    simp [hflag]
  · unfold download_item
    simp [hflag, hstat]
  · rw [hfl, List.count_append]
    simp

theorem failure_reporting_amended_witness :
    (download_item ["Error: network timeout"] "" 1 "Art" "Alb" "id1"
        initialProgress).success = false ∧
    (download_item ["Error: network timeout"] "" 1 "Art" "Alb" "id1"
        initialProgress).state.current_track_status =
      "❌ " ++ computeErrorMsg (stderrErrorLines "") ["Error: network timeout"] ∧
    (download_item ["Error: network timeout"] "" 1 "Art" "Alb" "id1"
        initialProgress).state.failed_items.count "Art - Alb" =
      initialProgress.failed_items.count "Art - Alb" + 1 :=
  ⟨(failure_reporting_amended ["Error: network timeout"] "" 1 "Art" "Alb" "id1"
      initialProgress (by decide)).1,
   (failure_reporting_amended ["Error: network timeout"] "" 1 "Art" "Alb" "id1"
      initialProgress (by decide)).2.1,
   (failure_reporting_amended ["Error: network timeout"] "" 1 "Art" "Alb" "id1"
      initialProgress (by decide)).2.2.2⟩

theorem failure_reason_window_counterexample :
    computeErrorMsg [] ["Error: network timeout", "a", "b", "c", "d", "e"] =
      "Erreur inconnue" ∧
    claimedErrorMsg [] ["Error: network timeout", "a", "b", "c", "d", "e"] =
      "Error: network timeout" ∧
    trigError "Error: network timeout" = true ∧
    computeErrorMsg [] ["Error: network timeout", "a", "b", "c", "d", "e"] ≠
      claimedErrorMsg [] ["Error: network timeout", "a", "b", "c", "d", "e"] := by
  decide

/-- C5: for every malformed input URL (wrong domain, pattern not matching,
or kind outside album and playlist) and for every URL whose remote lookup
fails, the resolver returns the empty job sequence (raising is modelled
as Except and every error is mapped to the empty list, so no exception
escapes the resolver boundary), and the resolution of a URL list splits
around any one URL, so processing of the remaining URLs continues. -/
theorem resolver_error_containment :
    ∀ (sp : SpotifyOracle) (url : String),
      (malformedUrl url = true → parse_spotify_item sp url = []) ∧
      (∀ ty id, extract_spotify_info url = .ok (ty, id) →
        (ty = "album" → sp.album id = .error () → parse_spotify_item sp url = []) ∧
        (ty = "playlist" → sp.playlist id = .error () → parse_spotify_item sp url = []) ∧
        (ty = "album" → ∀ a, sp.album id = .ok a →
          fetchPages (fun off => sp.album_tracks id off) 50 a.total = .error () →
          parse_spotify_item sp url = []) ∧
        (ty = "playlist" → ∀ pl, sp.playlist id = .ok pl →
          fetchPages (fun off => sp.playlist_tracks id off) 100 pl.total = .error () →
          parse_spotify_item sp url = [])) ∧
      (∀ pre post, resolveUrls sp (pre ++ url :: post) =
        resolveUrls sp pre ++ parse_spotify_item sp url ++ resolveUrls sp post) := by
  intro sp url
  refine ⟨?_, ?_, ?_⟩
  · intro h
    unfold malformedUrl at h
    unfold parse_spotify_item extract_spotify_info
    by_cases hdom : containsSub url "spotify.com"
    · rw [hdom] at h
      simp only [Bool.not_true, Bool.false_or] at h
      cases hm : spotifyUrlMatch url with
      | none => simp [hdom, hm]
      | some pr =>
        obtain ⟨ty, id⟩ := pr
        rw [hm] at h
        simp only [Bool.not_eq_true'] at h
        simp [hdom, hm, h]
    · simp [hdom]
  · intro ty id hok
    refine ⟨?_, ?_, ?_, ?_⟩
    · intro hty herr
      unfold parse_spotify_item
      rw [hok]
      subst hty
      simp [get_album_tracks_info, herr]
    · intro hty herr
      unfold parse_spotify_item
      rw [hok]
      subst hty
      simp [get_playlist_info, herr]
    · intro hty a ha hpages
      unfold parse_spotify_item
      rw [hok]
      subst hty
      simp only [if_pos rfl]
      unfold get_album_tracks_info
      rw [ha]
      dsimp only
      rw [hpages]
      simp
    · intro hty pl hpl hpages
      unfold parse_spotify_item
      rw [hok]
      subst hty
      simp only [String.reduceEq, if_neg, if_pos rfl]
      unfold get_playlist_info
      rw [hpl]
      dsimp only
      rw [hpages]
      simp
  · intro pre post
    rw [resolveUrls_append, resolveUrls_cons, List.append_assoc]

theorem resolver_error_containment_witness :
    parse_spotify_item sampleOracle "https://open.spotify.com/artist/xyz" = [] ∧
    parse_spotify_item sampleOracle "https://open.spotify.com/album/unknown9" = [] ∧
    resolveUrls sampleOracle
        ["https://open.spotify.com/album/alb1", "https://open.spotify.com/artist/xyz",
          "https://open.spotify.com/playlist/pl1"] =
      resolveUrls sampleOracle ["https://open.spotify.com/album/alb1"] ++
        parse_spotify_item sampleOracle "https://open.spotify.com/artist/xyz" ++
        resolveUrls sampleOracle ["https://open.spotify.com/playlist/pl1"] :=
  ⟨(resolver_error_containment sampleOracle "https://open.spotify.com/artist/xyz").1
      (by decide),
   ((resolver_error_containment sampleOracle "https://open.spotify.com/album/unknown9").2.1
      "album" "unknown9" (by rfl)).1 rfl (by rfl),
   (resolver_error_containment sampleOracle "https://open.spotify.com/artist/xyz").2.2
      ["https://open.spotify.com/album/alb1"] ["https://open.spotify.com/playlist/pl1"]⟩

/-- C7 (amended): for an album URL the resolver looks up the album
metadata once, paginates the track listing, and emits exactly one
TrackJob per page entry carrying a (non-empty) id, each tagged with
source_kind equal to the literal track — not album — and carrying the
sanitized artist and album name. -/
theorem album_resolution_amended :
    ∀ (sp : SpotifyOracle) (album_id : String) (a : AlbumData)
      (entries : List AlbumTrackEntry),
      sp.album album_id = .ok a →
      fetchPages (fun off => sp.album_tracks album_id off) 50 a.total = .ok entries →
      get_album_tracks_info sp album_id =
        entries.filterMap (albumEntryJob a.artist a.name) ∧
      (get_album_tracks_info sp album_id).length =
        entries.countP (fun e => (albumEntryJob a.artist a.name e).isSome) ∧
      ∀ j ∈ get_album_tracks_info sp album_id,
        j.source_kind = "track" ∧ j.artist = sanitize_filename a.artist ∧
          j.album = sanitize_filename a.name := by
  intro sp album_id a entries h1 h2
  have heq : get_album_tracks_info sp album_id =
      entries.filterMap (albumEntryJob a.artist a.name) := by
    unfold get_album_tracks_info
    rw [h1]
    dsimp only
    rw [h2]
  refine ⟨heq, ?_, ?_⟩
  · rw [heq, length_filterMap_eq_countP]
  · intro j hj
    rw [heq] at hj
    rcases List.mem_filterMap.1 hj with ⟨e, _, he⟩
    exact albumEntryJob_spec a.artist a.name e j he

theorem album_resolution_amended_witness :
    get_album_tracks_info sampleOracle "alb1" =
      ([⟨some "t1"⟩, ⟨some "t2"⟩, ⟨some "t3"⟩] : List AlbumTrackEntry).filterMap
        (albumEntryJob "The Artist" "The Album") ∧
    (get_album_tracks_info sampleOracle "alb1").length =
      ([⟨some "t1"⟩, ⟨some "t2"⟩, ⟨some "t3"⟩] : List AlbumTrackEntry).countP
        (fun e => (albumEntryJob "The Artist" "The Album" e).isSome) :=
  ⟨(album_resolution_amended sampleOracle "alb1" ⟨"The Artist", "The Album", 3⟩
      [⟨some "t1"⟩, ⟨some "t2"⟩, ⟨some "t3"⟩] (by rfl) (by rfl)).1,
   (album_resolution_amended sampleOracle "alb1" ⟨"The Artist", "The Album", 3⟩
      [⟨some "t1"⟩, ⟨some "t2"⟩, ⟨some "t3"⟩] (by rfl) (by rfl)).2.1⟩

theorem album_source_kind_counterexample :
    (get_album_tracks_info sampleOracle "alb1").map TrackJob.source_kind =
      ["track", "track", "track"] ∧
    ¬ ("track" = "album") := by
  refine ⟨by rfl, by decide⟩

/-- C8 (amended): for a playlist URL the resolver emits one TrackJob with
source_kind playlist per page entry, skipping exactly those entries whose
track is null, has no (or an empty) id, or has an empty artists list —
the artists guard being the condition beyond the claim, see the
counterexample. -/
theorem playlist_resolution_amended :
    ∀ (sp : SpotifyOracle) (playlist_id : String) (pl : PlaylistData)
      (entries : List PlaylistEntry),
      sp.playlist playlist_id = .ok pl →
      fetchPages (fun off => sp.playlist_tracks playlist_id off) 100 pl.total = .ok entries →
      get_playlist_info sp playlist_id = entries.filterMap playlistEntryJob ∧
      (get_playlist_info sp playlist_id).length =
        entries.countP (fun e => (playlistEntryJob e).isSome) ∧
      ∀ j ∈ get_playlist_info sp playlist_id, j.source_kind = "playlist" := by
  intro sp playlist_id pl entries h1 h2
  have heq : get_playlist_info sp playlist_id = entries.filterMap playlistEntryJob := by
    unfold get_playlist_info
    rw [h1]
    dsimp only
    rw [h2]
  refine ⟨heq, ?_, ?_⟩
  · rw [heq, length_filterMap_eq_countP]
  · intro j hj
    rw [heq] at hj
    rcases List.mem_filterMap.1 hj with ⟨e, _, he⟩
    exact playlistEntryJob_spec e j he

theorem playlist_resolution_amended_witness :
    get_playlist_info sampleOracle "pl1" =
      ([⟨some ⟨some "p1", ["Some Artist"], "Some Album"⟩⟩, ⟨none⟩] :
          List PlaylistEntry).filterMap playlistEntryJob ∧
    (get_playlist_info sampleOracle "pl1").length =
      ([⟨some ⟨some "p1", ["Some Artist"], "Some Album"⟩⟩, ⟨none⟩] :
          List PlaylistEntry).countP (fun e => (playlistEntryJob e).isSome) :=
  ⟨(playlist_resolution_amended sampleOracle "pl1" ⟨"My Playlist", 2⟩
      [⟨some ⟨some "p1", ["Some Artist"], "Some Album"⟩⟩, ⟨none⟩] (by rfl) (by rfl)).1,
   (playlist_resolution_amended sampleOracle "pl1" ⟨"My Playlist", 2⟩
      [⟨some ⟨some "p1", ["Some Artist"], "Some Album"⟩⟩, ⟨none⟩] (by rfl) (by rfl)).2.1⟩

theorem playlist_artists_guard_counterexample :
    playlistEntryJob ⟨some ⟨some "x9", [], "Alb"⟩⟩ = none ∧
    (claimedPlaylistEntryJob ⟨some ⟨some "x9", [], "Alb"⟩⟩).isSome = true ∧
    get_playlist_info sampleOracle "pl2" = [] ∧
    (([⟨some ⟨some "x9", [], "Alb"⟩⟩] : List PlaylistEntry).filterMap
        claimedPlaylistEntryJob).length = 1 := by
  refine ⟨by rfl, by rfl, by rfl, by rfl⟩
